import Mathlib

/-!
Shallow embedding of `src/scripts/get-steam-app-info.py`.

The script is:

    def main():
        app_ids = [int(arg) for arg in sys.argv[1:]]
        client = SteamClient()
        client.anonymous_login()
        info = client.get_product_info(apps=app_ids)
        print(json.dumps(info, indent=2))

We model:
  * Python `int(str)` (base 10) on ASCII strings: optional surrounding
    whitespace, optional single `+`/`-` sign, then decimal digits with
    underscores allowed only between two digits.  (CPython additionally
    accepts some non-ASCII whitespace and digits; the claims only concern
    ASCII inputs, so the model is restricted to ASCII.)
  * Python values returned by the collaborator as a nested inductive
    `PyValue`; JSON object keys are modelled as strings.  The constructor
    `PyValue.object` stands for any Python value `json.dumps` cannot
    serialize (it raises `TypeError` on such values).
  * `json.dumps(v, indent=2)` faithfully: 2-space indentation per nesting
    level, `",\n"` item separator, `": "` key separator, empty containers
    rendered inline, strings escaped with `ensure_ascii` semantics
    (characters outside `0x20..0x7e` escaped as `\uXXXX`, with surrogate
    pairs for astral code points).
  * The external `SteamClient` as a record of stubbed behaviours (what
    `anonymous_login` and `get_product_info` do), and `main` as a pure
    function from the argument list and the stub to the trace of observable
    events (login call, query call, stdout writes) plus the outcome
    (normal return or uncaught Python exception).
-/

set_option autoImplicit false

namespace GetSteamAppInfo

/-- ASCII whitespace stripped by Python's `int()` (and `str.strip()`). -/
def pyWS (c : Char) : Bool :=
  c = ' ' || c = '\t' || c = '\n' || c = '\r' || c = '\x0b' || c = '\x0c'

/-- Value of an ASCII decimal digit, `none` for any other character. -/
def digitVal (c : Char) : Option Nat :=
  if '0' ≤ c && c ≤ '9' then some (c.toNat - '0'.toNat) else none

/-- Digit run of Python `int()`: decimal digits where `_` may appear only
between two digits.  `lastDigit` records whether the previous character was
a digit; the run must be nonempty and must end with a digit. -/
def parseUDigits : List Char → Nat → Bool → Option Nat
  | [], acc, true => some acc
  | [], _, false => none
  | c :: cs, acc, lastDigit =>
    match digitVal c with
    | some d => parseUDigits cs (acc * 10 + d) true
    | none => if c = '_' && lastDigit then parseUDigits cs acc false else none

/-- Strip leading and trailing ASCII whitespace, as a character list. -/
def pyStrip (s : String) : List Char :=
  ((s.toList.dropWhile pyWS).reverse.dropWhile pyWS).reverse

/-- Python `int(s)` in base 10 on ASCII strings: `some n` on success,
`none` when `int()` raises `ValueError`. -/
def pyInt (s : String) : Option Int :=
  match pyStrip s with
  | '+' :: rest => (parseUDigits rest 0 false).map Int.ofNat
  | '-' :: rest => (parseUDigits rest 0 false).map (fun n => -(Int.ofNat n))
  | rest => (parseUDigits rest 0 false).map Int.ofNat

/-- The list comprehension `[int(arg) for arg in sys.argv[1:]]`: parses the
arguments left to right, `none` as soon as one raises `ValueError`. -/
def parseArgs : List String → Option (List Int)
  | [] => some []
  | a :: rest =>
    match pyInt a with
    | none => none
    | some n =>
      match parseArgs rest with
      | none => none
      | some ns => some (n :: ns)

/-- Python exceptions relevant to the script: `ValueError` from `int()`,
`TypeError` from `json.dumps`, and any exception raised by the collaborator
(authentication, network, protocol), carried with its message. -/
inductive PyError where
  | valueError
  | typeError
  | clientError (msg : String)
deriving DecidableEq

/-- Nested Python value as returned by the collaborator.  `object tag` is
any value that `json.dumps` cannot serialize. -/
inductive PyValue where
  | null
  | bool (b : Bool)
  | int (i : Int)
  | str (s : String)
  | list (xs : List PyValue)
  | dict (kvs : List (String × PyValue))
  | object (tag : String)

/-- `indent=2` indentation for nesting level `lvl`. -/
def jIndent (lvl : Nat) : String :=
  String.mk (List.replicate (lvl * 2) ' ')

/-- Lower-case hexadecimal digit. -/
def hexDig (n : Nat) : Char :=
  if n < 10 then Char.ofNat (48 + n) else Char.ofNat (97 + (n - 10))

/-- Four lower-case hexadecimal digits, as in `\uXXXX`. -/
def hex4 (n : Nat) : String :=
  String.mk [hexDig (n / 4096 % 16), hexDig (n / 256 % 16),
             hexDig (n / 16 % 16), hexDig (n % 16)]

/-- JSON escape of one character, `ensure_ascii=True` (CPython escapes every
character outside `0x20..0x7e`, astral code points as surrogate pairs). -/
def escChar (c : Char) : String :=
  if c = '"' then "\\\""
  else if c = '\\' then "\\\\"
  else if c = '\n' then "\\n"
  else if c = '\t' then "\\t"
  else if c = '\r' then "\\r"
  else if c = '\x08' then "\\b"
  else if c = '\x0c' then "\\f"
  else if 32 ≤ c.toNat && c.toNat ≤ 126 then String.singleton c
  else if c.toNat < 65536 then "\\u" ++ hex4 c.toNat
  else
    let n := c.toNat - 65536
    "\\u" ++ hex4 (55296 + n / 1024) ++ "\\u" ++ hex4 (56320 + n % 1024)

/-- JSON string literal for `s`. -/
def encStr (s : String) : String :=
  "\"" ++ String.join (s.toList.map escChar) ++ "\""

/-- Join already-rendered container members: each on its own line at
indentation level `lvl`, separated by `","`. -/
def joinParts (lvl : Nat) (parts : List String) : String :=
  String.intercalate ",\n" (parts.map (fun p => jIndent lvl ++ p))

mutual

/-- `json.dumps(v, indent=2)` at nesting level `lvl`; `TypeError` on a value
the serializer does not support. -/
def dumpVal (lvl : Nat) : PyValue → Except PyError String
  | .null => .ok "null"
  | .bool true => .ok "true"
  | .bool false => .ok "false"
  | .int i => .ok (toString i)
  | .str s => .ok (encStr s)
  | .list xs =>
    match dumpItems (lvl + 1) xs with
    | .error e => .error e
    | .ok parts =>
      if parts.isEmpty then .ok "[]"
      else .ok ("[\n" ++ joinParts (lvl + 1) parts ++ "\n" ++ jIndent lvl ++ "]")
  | .dict kvs =>
    match dumpPairs (lvl + 1) kvs with
    | .error e => .error e
    | .ok parts =>
      if parts.isEmpty then .ok "\x7b\x7d"
      else .ok ("\x7b\n" ++ joinParts (lvl + 1) parts ++ "\n" ++ jIndent lvl ++ "\x7d")
  | .object _ => .error .typeError

/-- Render the members of a JSON array. -/
def dumpItems (lvl : Nat) : List PyValue → Except PyError (List String)
  | [] => .ok []
  | v :: vs =>
    match dumpVal lvl v with
    | .error e => .error e
    | .ok s =>
      match dumpItems lvl vs with
      | .error e => .error e
      | .ok ss => .ok (s :: ss)

/-- Render the members of a JSON object as `"key": value` strings. -/
def dumpPairs (lvl : Nat) : List (String × PyValue) → Except PyError (List String)
  | [] => .ok []
  | (k, v) :: kvs =>
    match dumpVal lvl v with
    | .error e => .error e
    | .ok s =>
      match dumpPairs lvl kvs with
      | .error e => .error e
      | .ok ss => .ok ((encStr k ++ ": " ++ s) :: ss)

end

/-- `json.dumps(v, indent=2)` as called on line 14 of the script. -/
def jsonDumps (v : PyValue) : Except PyError String :=
  dumpVal 0 v

/-- Observable events of one run: the authentication handshake, the batched
product-info query with the identifier list it carries, and writes to
standard output. -/
inductive Event where
  | loginCall
  | queryCall (apps : List Int)
  | stdout (s : String)
deriving DecidableEq

/-- Stub of the external `SteamClient` collaborator: what `anonymous_login`
does (raises, or returns some Python value such as an `EResult` code) and
what `get_product_info(apps=ids)` does for each identifier list. -/
structure SteamClient where
  loginResult : Except PyError PyValue
  productInfo : List Int → Except PyError PyValue

/-- The script's `main`, as a pure function of the argument list
(`sys.argv[1:]`) and the collaborator stub.  Returns the trace of observable
events together with the outcome: `.ok ()` for a normal return (process exit
status 0), `.error e` for an uncaught exception (nonzero exit status). -/
def main (args : List String) (client : SteamClient) :
    List Event × Except PyError Unit :=
  match parseArgs args with
  | none => ([], .error .valueError)
  | some app_ids =>
    match client.loginResult with
    | .error e => ([.loginCall], .error e)
    | .ok _ =>
      match client.productInfo app_ids with
      | .error e => ([.loginCall, .queryCall app_ids], .error e)
      | .ok info =>
        match jsonDumps info with
        | .error e => ([.loginCall, .queryCall app_ids], .error e)
        | .ok s =>
          ([.loginCall, .queryCall app_ids, .stdout (s ++ "\n")], .ok ())

/-- The standard-output writes of a run, in order.  `[]` means nothing was
written; the bytes a run emits are the concatenation of this list. -/
def stdoutOf : List Event → List String
  | [] => []
  | .stdout s :: tr => s :: stdoutOf tr
  | _ :: tr => stdoutOf tr

/-- The identifier lists of the query calls a run performs, in order. -/
def queryCalls (tr : List Event) : List (List Int) :=
  tr.filterMap fun e =>
    match e with
    | .queryCall ids => some ids
    | _ => none

/-- Process exit status of a run: 0 on normal return, 1 on an uncaught
exception (CPython exits with status 1 on an unhandled exception). -/
def pyExitCode (r : Except PyError Unit) : Nat :=
  match r with
  | .ok _ => 0
  | .error _ => 1

/-! ### Supporting lemmas -/

/-- If some argument fails to parse, the whole comprehension fails. -/
theorem parseArgs_eq_none {args : List String} {a : String}
    (hmem : a ∈ args) (ha : pyInt a = none) : parseArgs args = none := by
  induction args with
  | nil => cases hmem
  | cons b bs ih =>
    rcases List.mem_cons.mp hmem with hab | htail
    · subst hab
      simp [parseArgs, ha]
    · cases hb : pyInt b with
      | none => simp [parseArgs, hb]
      | some n => simp [parseArgs, hb, ih htail]

/-- Concrete collaborator stubs used by the witnesses below. -/
def stubClient : SteamClient where
  loginResult := .ok .null
  productInfo := fun _ => .ok .null

/-- The spec's example response, `\x7b"apps": \x7b"730": \x7b"name": "Example"\x7d\x7d\x7d`. -/
def exampleInfo : PyValue :=
  .dict [("apps", .dict [("730", .dict [("name", .str "Example")])])]

/-- Stub returning the spec's example response to every query. -/
def exampleClient : SteamClient where
  loginResult := .ok .null
  productInfo := fun _ => .ok exampleInfo

/-- Stub whose authentication handshake raises. -/
def authFailClient : SteamClient where
  loginResult := .error (.clientError "LoginFailure")
  productInfo := fun _ => .ok .null

/-- Stub whose `anonymous_login` returns, without raising, an `EResult`
value that indicates failure (`EResult.Fail == 2` in the Steam protocol). -/
def loginFailValueClient : SteamClient where
  loginResult := .ok (.int 2)
  productInfo := fun _ => .ok .null

/-- Stub whose response contains a value `json.dumps` cannot serialize
(a Python `set`, say). -/
def badInfoClient : SteamClient where
  loginResult := .ok .null
  productInfo := fun _ => .ok (.dict [("apps", .object "set()")])

/-! ### Claims -/

/-- C1: for every sequence of arguments each of which is a valid integer
literal, the identifier list the script constructs equals, element for
element and in the same order, the integers parsed from those arguments;
duplicates are kept and nothing is added, dropped or reordered. -/
theorem parse_elementwise (args : List String) (ids : List Int)
    (hlen : args.length = ids.length)
    (h : ∀ p ∈ args.zip ids, pyInt p.1 = some p.2) :
    parseArgs args = some ids := by
  induction args generalizing ids with
  | nil =>
    cases ids with
    | nil => rfl
    | cons n ns => simp at hlen
  | cons a as ih =>
    cases ids with
    | nil => simp at hlen
    | cons n ns =>
      have ha : pyInt a = some n := h (a, n) (by simp)
      have htail : parseArgs as = some ns := by
        refine ih ns (by simpa using hlen) ?_
        intro p hp
        exact h p (by simp [hp])
      simp [parseArgs, ha, htail]

/-- Witness for C1 at the spec's example `["730", "440"]`. -/
theorem parse_elementwise_witness : parseArgs ["730", "440"] = some [730, 440] :=
  parse_elementwise ["730", "440"] [730, 440] (by decide) (by decide)

/-- C2: an argument list with a non-integer argument anywhere makes the
script fail with `ValueError` before any observable activity: the trace is
empty — no session, no handshake, no query. -/
theorem bad_arg_no_network (args : List String) (client : SteamClient)
    (h : ∃ a ∈ args, pyInt a = none) :
    main args client = ([], .error .valueError) := by
  obtain ⟨a, hmem, ha⟩ := h
  simp [main, parseArgs_eq_none hmem ha]

/-- Witness for C2 at the spec's example `["730", "abc"]`. -/
theorem bad_arg_no_network_witness :
    main ["730", "abc"] stubClient = ([], .error .valueError) :=
  bad_arg_no_network ["730", "abc"] stubClient ⟨"abc", by decide, by decide⟩

/-- C3: whenever the query returns a serializable structure `info`, the
script writes to standard output exactly `json.dumps(info, indent=2)`
followed by one newline, and nothing else: the trace holds a single stdout
event with that content. -/
theorem output_is_dump (args : List String) (ids : List Int)
    (client : SteamClient) (v info : PyValue) (s : String)
    (hargs : parseArgs args = some ids)
    (hlogin : client.loginResult = .ok v)
    (hinfo : client.productInfo ids = .ok info)
    (hdump : jsonDumps info = .ok s) :
    (main args client).1 = [.loginCall, .queryCall ids, .stdout (s ++ "\n")] ∧
    stdoutOf (main args client).1 = [s ++ "\n"] := by
  simp [main, hargs, hlogin, hinfo, hdump, stdoutOf]

/-- Witness for C3: the spec's stub response
`\x7b"apps": \x7b"730": \x7b"name": "Example"\x7d\x7d\x7d` for request `[730]`
yields exactly its 2-space-indented rendering plus a newline. -/
theorem output_is_dump_witness :
    (main ["730"] exampleClient).1 =
      [.loginCall, .queryCall [730],
       .stdout ("\x7b\n  \"apps\": \x7b\n    \"730\": \x7b\n      \"name\": \"Example\"\n    \x7d\n  \x7d\n\x7d" ++ "\n")] ∧
    stdoutOf (main ["730"] exampleClient).1 =
      ["\x7b\n  \"apps\": \x7b\n    \"730\": \x7b\n      \"name\": \"Example\"\n    \x7d\n  \x7d\n\x7d" ++ "\n"] :=
  output_is_dump ["730"] [730] exampleClient .null exampleInfo _ rfl rfl rfl rfl

/-- C4: whenever every argument parses (the empty list included) and the
handshake returns, the script issues exactly one batched query carrying the
full identifier list — there is no local rejection of the empty case. -/
theorem single_query (args : List String) (ids : List Int)
    (client : SteamClient) (v : PyValue)
    (hargs : parseArgs args = some ids)
    (hlogin : client.loginResult = .ok v) :
    queryCalls (main args client).1 = [ids] := by
  cases hinfo : client.productInfo ids with
  | error e => simp [main, hargs, hlogin, hinfo, queryCalls]
  | ok info =>
    cases hdump : jsonDumps info with
    | error e => simp [main, hargs, hlogin, hinfo, hdump, queryCalls]
    | ok s => simp [main, hargs, hlogin, hinfo, hdump, queryCalls]

/-- Witness for C4 at the empty argument list: still exactly one query,
carrying the empty identifier list. -/
theorem single_query_witness : queryCalls (main [] stubClient).1 = [[]] :=
  single_query [] [] stubClient .null rfl rfl

/-- C5: when the anonymous handshake raises, the script aborts with a
nonzero exit status, performs no query call and writes nothing to standard
output (the trace stops at the login call, and the exception propagates). -/
theorem auth_failure_aborts (args : List String) (ids : List Int)
    (client : SteamClient) (e : PyError)
    (hargs : parseArgs args = some ids)
    (hlogin : client.loginResult = .error e) :
    (main args client).1 = [.loginCall] ∧
    queryCalls (main args client).1 = [] ∧
    stdoutOf (main args client).1 = [] ∧
    (main args client).2 = .error e ∧
    pyExitCode (main args client).2 ≠ 0 := by
  simp [main, hargs, hlogin, queryCalls, stdoutOf, pyExitCode]

/-- Witness for C5: a stubbed handshake failure on arguments `["730"]`. -/
theorem auth_failure_aborts_witness :
    (main ["730"] authFailClient).1 = [.loginCall] ∧
    queryCalls (main ["730"] authFailClient).1 = [] ∧
    stdoutOf (main ["730"] authFailClient).1 = [] ∧
    (main ["730"] authFailClient).2 = .error (.clientError "LoginFailure") ∧
    pyExitCode (main ["730"] authFailClient).2 ≠ 0 :=
  auth_failure_aborts ["730"] [730] authFailClient (.clientError "LoginFailure") rfl rfl

/-- C6: the run is a deterministic function of the arguments and the
collaborator's behaviour: two runs against stubs with identical behaviour
produce identical traces — in particular byte-identical standard output. -/
theorem deterministic_output (args : List String) (c c' : SteamClient)
    (hl : c.loginResult = c'.loginResult)
    (hp : ∀ ids, c.productInfo ids = c'.productInfo ids) :
    main args c = main args c' ∧
    stdoutOf (main args c).1 = stdoutOf (main args c').1 := by
  have hmain : main args c = main args c' := by
    unfold main
    simp only [hl, hp]
  exact ⟨hmain, by rw [hmain]⟩

/-- Witness for C6: two runs against behaviourally identical stubs. -/
theorem deterministic_output_witness :
    main ["730"] exampleClient = main ["730"] exampleClient ∧
    stdoutOf (main ["730"] exampleClient).1 = stdoutOf (main ["730"] exampleClient).1 :=
  deterministic_output ["730"] exampleClient exampleClient rfl (fun _ => rfl)

/-- C7: every error, at whatever step it arises (parse, authentication,
query, serialization), aborts the process with a nonzero exit status and no
partial standard-output: an erroring run writes nothing to stdout. -/
theorem error_aborts_no_output (args : List String) (client : SteamClient)
    (e : PyError) (h : (main args client).2 = .error e) :
    pyExitCode (main args client).2 ≠ 0 ∧
    stdoutOf (main args client).1 = [] := by
  refine ⟨by simp [pyExitCode, h], ?_⟩
  cases hargs : parseArgs args with
  | none => simp [main, hargs, stdoutOf]
  | some app_ids =>
    cases hlogin : client.loginResult with
    | error e₀ => simp [main, hargs, hlogin, stdoutOf]
    | ok v =>
      cases hinfo : client.productInfo app_ids with
      | error e₁ => simp [main, hargs, hlogin, hinfo, stdoutOf]
      | ok info =>
        cases hdump : jsonDumps info with
        | error e₂ => simp [main, hargs, hlogin, hinfo, hdump, stdoutOf]
        | ok s => simp [main, hargs, hlogin, hinfo, hdump] at h

/-- Witness for C7 at the parse-error run `["abc"]`. -/
theorem error_aborts_no_output_witness :
    pyExitCode (main ["abc"] stubClient).2 ≠ 0 ∧
    stdoutOf (main ["abc"] stubClient).1 = [] :=
  error_aborts_no_output ["abc"] stubClient .valueError rfl

/-- C8: `int()` accepts strictly more than non-negative base-10 literals —
a leading sign, surrounding whitespace and underscore separators all parse
(to the corresponding, possibly negative, identifier) instead of raising,
and such arguments flow into the identifier list. -/
theorem int_accepts_extended_literals :
    pyInt "-5" = some (-5) ∧ pyInt "+5" = some 5 ∧
    pyInt " 730 " = some 730 ∧ pyInt "1_000" = some 1000 ∧
    parseArgs ["-5", "+5", " 730 ", "1_000"] = some [-5, 5, 730, 1000] := by
  decide

/-- C9: the script ignores the value `anonymous_login` returns: for every
value the handshake returns without raising — a failure `EResult` included —
the batched query is issued unconditionally. -/
theorem login_value_ignored (args : List String) (ids : List Int)
    (client : SteamClient) (v : PyValue)
    (hargs : parseArgs args = some ids)
    (hlogin : client.loginResult = .ok v) :
    Event.queryCall ids ∈ (main args client).1 := by
  cases hinfo : client.productInfo ids with
  | error e => simp [main, hargs, hlogin, hinfo]
  | ok info =>
    cases hdump : jsonDumps info with
    | error e => simp [main, hargs, hlogin, hinfo, hdump]
    | ok s => simp [main, hargs, hlogin, hinfo, hdump]

/-- Witness for C9: the handshake returns the failure code `EResult.Fail`
(2) without raising, and the query is still issued. -/
theorem login_value_ignored_witness :
    Event.queryCall [730] ∈ (main ["730"] loginFailValueClient).1 :=
  login_value_ignored ["730"] [730] loginFailValueClient (.int 2) rfl rfl

/-- C10: when the query's result contains a value the serializer cannot
handle, `json.dumps` raises `TypeError` after the query call and before any
output: the trace ends at the query, nothing reaches standard output. -/
theorem unserializable_aborts (args : List String) (ids : List Int)
    (client : SteamClient) (v info : PyValue) (e : PyError)
    (hargs : parseArgs args = some ids)
    (hlogin : client.loginResult = .ok v)
    (hinfo : client.productInfo ids = .ok info)
    (hdump : jsonDumps info = .error e) :
    (main args client).1 = [.loginCall, .queryCall ids] ∧
    (main args client).2 = .error e ∧
    stdoutOf (main args client).1 = [] := by
  simp [main, hargs, hlogin, hinfo, hdump, stdoutOf]

/-- Witness for C10: a response holding a Python `set` makes the run abort
with `TypeError` after the query, with empty standard output. -/
theorem unserializable_aborts_witness :
    (main ["730"] badInfoClient).1 = [.loginCall, .queryCall [730]] ∧
    (main ["730"] badInfoClient).2 = .error .typeError ∧
    stdoutOf (main ["730"] badInfoClient).1 = [] :=
  unserializable_aborts ["730"] [730] badInfoClient .null
    (.dict [("apps", .object "set()")]) .typeError rfl rfl rfl rfl

end GetSteamAppInfo
